import Mathlib

/-!
Verification of the TLS client connection-bootstrap subsystem
(`tls_client.c` of libtls-bearssl): servername (SNI) canonicalization,
address-resolution fallback, the candidate-connect loop, handshake
bootstrap (`tls_connect_common`) and the two transport binders
(`tls_connect_fds`, `tls_connect_cbs`).

Strings are modelled as `List Char`; the libc collaborators
(`getaddrinfo`, `socket`, `connect`, `inet_pton`) and the out-of-file
helpers (`tls_conn_new`, `tls_configure_x509`, `strdup`) are modelled
as oracles / boolean environment flags where their internals do not
matter, and as executable syntactic checks where they do (`inet_pton`).
-/

abbrev Str := List Char

/-! ## Character / string helpers -/

/-- Decimal digit test, as in the libc `isdigit` range check. -/
def isDig (c : Char) : Bool := '0' ≤ c && c ≤ '9'

/-- Hexadecimal digit test. -/
def isHexDig (c : Char) : Bool :=
  isDig c || ('a' ≤ c && c ≤ 'f') || ('A' ≤ c && c ≤ 'F')

/-- Numeric value of a decimal digit string (digits already checked). -/
def decVal : Str → Nat
  | [] => 0
  | c :: rest => decVal rest + c.toNat.sub 48 * 10 ^ rest.length

/-- Split a character list on a separator character, keeping empty fields. -/
def splitOnChar (sep : Char) : Str → List Str
  | [] => [[]]
  | c :: rest =>
    let r := splitOnChar sep rest
    if c == sep then [] :: r
    else
      match r with
      | g :: gs => (c :: g) :: gs
      | [] => [[c]]

/-- Modelled from the spec: the system `inet_pton(AF_INET, ...)`
syntactic check used by `tls_connect_common` (libc, outside the
repository): a dotted-decimal quad, each octet one to three digits,
value at most 255, no leading zeros. One octet of the quad. -/
def ipv4Octet (l : Str) : Bool :=
  l ≠ [] && l.all isDig && decVal l ≤ 255 &&
    (match l with
     | '0' :: rest => rest = []
     | _ => true)

/-- Modelled from the spec: the system `inet_pton(AF_INET, ...)`
syntactic validity test — exactly four valid octets separated by dots. -/
def inet_pton4 (l : Str) : Bool :=
  match splitOnChar '.' l with
  | [a, b, c, d] => ipv4Octet a && ipv4Octet b && ipv4Octet c && ipv4Octet d
  | _ => false

/-- A 16-bit hexadecimal group of an IPv6 literal: one to four hex digits. -/
def isH16 (l : Str) : Bool := l ≠ [] && l.length ≤ 4 && l.all isHexDig

/-- Split at the first `::` occurrence, if any. -/
def splitDoubleColon : Str → Option (Str × Str)
  | [] => none
  | ':' :: ':' :: rest => some ([], rest)
  | c :: rest => (splitDoubleColon rest).map (fun p => (c :: p.1, p.2))

/-- Number of 16-bit units contributed by a colon-separated group list;
the final group may be an embedded IPv4 literal, counting as two units.
`none` when some group is malformed. -/
def groupUnits : List Str → Option Nat
  | [] => some 0
  | [g] => if isH16 g then some 1 else if inet_pton4 g then some 2 else none
  | g :: gs => if isH16 g then (groupUnits gs).map (· + 1) else none

/-- Modelled from the spec: the system `inet_pton(AF_INET6, ...)`
syntactic validity test (libc, outside the repository): colon-separated
hexadecimal groups, at most one `::` compression, eight 16-bit units in
total (fewer than eight when `::` is present), optionally an embedded
IPv4 literal in the last position. -/
def inet_pton6 (l : Str) : Bool :=
  match splitDoubleColon l with
  | none =>
    match groupUnits (splitOnChar ':' l) with
    | some n => n = 8
    | none => false
  | some (lhs, rhs) =>
    (splitDoubleColon rhs).isNone &&
      (match (if lhs = [] then some 0 else groupUnits (splitOnChar ':' lhs)),
             (if rhs = [] then some 0 else groupUnits (splitOnChar ':' rhs)) with
       | some a, some b => a + b ≤ 7
       | _, _ => false)

/-- The RFC 6066 literal-address test of `tls_connect_common`
(`tls_client.c:203-204`): the string parses as an IPv4 or an IPv6
literal. -/
def isIPLiteral (l : Str) : Bool := inet_pton4 l || inet_pton6 l

/-- The trailing-dot strip of `tls_connect_common` (`tls_client.c:194-197`):
if the string is non-empty and its last character is a dot, drop that
one character, otherwise leave the string unchanged. -/
def stripTrailingDot (l : Str) : Str :=
  if l.getLast? = some '.' then l.dropLast else l

/-- The string ends with a dot. -/
def endsDot (l : Str) : Bool := l.getLast? == some '.'

/-- The string ends with two dots. -/
def endsTwoDots (l : Str) : Bool := endsDot l && endsDot l.dropLast

/-! ## Session data model (`struct tls`, `tls_internal.h`) -/

/-- Error values set through `tls_set_errorx` / `tls_set_error`, one
constructor per distinct message or errno-carrying failure of
`tls_client.c`. -/
inductive TlsErr where
  | notClient
  | hostNotSpecified
  | noPortProvided
  | outOfMemory
  | ocspNotSupported
  | connNewFailed
  | x509Failed
  | serverNameNotSpecified
  | invalidFds
  | noCallbacks
  | gaiError (e : Nat)
  | socketFailed (eno : Nat)
  | connectFailed (eno : Nat)
  deriving DecidableEq

/-- The BearSSL key-type tag carried by a keypair (`kp->key_type`, a C
int). -/
def BR_KEYTYPE_RSA : Nat := 1

/-- The BearSSL EC key-type tag. -/
def BR_KEYTYPE_EC : Nat := 2

/-- A configured local keypair; only the key-type tag matters here, the
chain and key material are externally owned. -/
structure Keypair where
  key_type : Nat
  deriving DecidableEq

/-- Which credential-binding call was made on the engine connection:
`br_ssl_client_set_single_rsa` with PKCS#1 v1.5 signing, or
`br_ssl_client_set_single_ec` with ASN.1 ECDSA signing. -/
inductive CredBinding where
  | rsaPkcs1
  | ecEcdsaAsn1
  deriving DecidableEq

/-- The engine-owned connection object (`ctx->conn`), recording which
engine calls were made on it: `br_ssl_client_set_default_rsapub`,
credential binding, and `br_ssl_client_reset` with its SNI argument
(`some sni` once called; the inner option is the possibly-absent SNI). -/
structure Conn where
  default_rsapub : Bool
  cred : Option CredBinding
  reset_sni : Option (Option Str)
  deriving DecidableEq

/-- The configuration fields of `ctx->config` read by this file. -/
structure TlsConfig where
  ocsp_require_stapling : Bool
  verify_name : Bool
  keypair : Option Keypair
  deriving DecidableEq

/-- An installed read or write callback: the descriptor-based defaults
`tls_fd_read_cb` / `tls_fd_write_cb`, or a user callback identified by
an abstract tag (a C function pointer). -/
inductive IOCb where
  | fdReadCb
  | fdWriteCb
  | userCb (f : Nat)
  deriving DecidableEq

/-- The client session (`struct tls`): role flag, configuration,
canonicalized servername, engine connection, `TLS_CONNECTED` state bit,
transport fields and last error. -/
structure Tls where
  flags_client : Bool
  config : TlsConfig
  servername : Option Str
  conn : Option Conn
  state_connected : Bool
  fd_read : Option Int
  fd_write : Option Int
  sock : Option Int
  read_cb : Option IOCb
  write_cb : Option IOCb
  cb_arg : Option Nat
  err : Option TlsErr
  deriving DecidableEq

/-- Modelled from the spec: a fresh client session as produced by
`tls_client()` (`tls_new` lives outside `src/`): a zeroed session with
the client role flag set. -/
def tls_client_new (cfg : TlsConfig) : Tls :=
  { flags_client := true
    config := cfg
    servername := none
    conn := none
    state_connected := false
    fd_read := none
    fd_write := none
    sock := none
    read_cb := none
    write_cb := none
    cb_arg := none
    err := none }

/-- Success/failure of the collaborators called by `tls_connect_common`
whose bodies live outside `src/`: `strdup` (allocation),
`tls_conn_new` (engine-object allocation) and `tls_configure_x509`. -/
structure Env where
  strdup_ok : Bool
  conn_new_ok : Bool
  configure_x509_ok : Bool

/-! ## Handshake bootstrap (`tls_connect_common`, `tls_client.c:169-257`) -/

/-- The keypair `switch` of `tls_connect_common`
(`tls_client.c:224-241`): RSA keys are bound through
`br_ssl_client_set_single_rsa` with PKCS#1 v1.5 signing, EC keys
through `br_ssl_client_set_single_ec` with ASN.1 ECDSA signing; the
`switch` has no default case, so any other key type leaves the
connection untouched. -/
def keypairSwitch (kp : Option Keypair) (conn : Conn) : Conn :=
  match kp with
  | some kp =>
    if kp.key_type = BR_KEYTYPE_RSA then { conn with cred := some .rsaPkcs1 }
    else if kp.key_type = BR_KEYTYPE_EC then { conn with cred := some .ecEcdsaAsn1 }
    else conn
  | none => conn

/-- The tail of `tls_connect_common` after servername canonicalization
(`tls_client.c:211-256`): OCSP-stapling rejection, engine-object
allocation, X.509 configuration, default-rsapub installation, the
keypair `switch`, the verify_name/SNI check, and finally
`br_ssl_client_reset` plus setting `TLS_CONNECTED`. -/
def tls_connect_rest (env : Env) (ctx : Tls) (sni : Option Str) : Tls × Int :=
  if ctx.config.ocsp_require_stapling = true then
    ({ ctx with err := some .ocspNotSupported }, -1)
  else if env.conn_new_ok = false then
    ({ ctx with err := some .connNewFailed }, -1)
  else
    let ctx := { ctx with conn := some ⟨false, none, none⟩ }
    if env.configure_x509_ok = false then
      ({ ctx with err := some .x509Failed }, -1)
    else
      let conn : Conn := ⟨true, none, none⟩
      let conn := keypairSwitch ctx.config.keypair conn
      let ctx := { ctx with conn := some conn }
      if ctx.config.verify_name = true ∧ sni = none then
        ({ ctx with err := some .serverNameNotSpecified }, -1)
      else
        ({ ctx with conn := some { conn with reset_sni := some sni },
                    state_connected := true }, 0)

/-- `tls_connect_common` (`tls_client.c:169-257`): client-role check,
then for a non-null servername a `strdup` into `ctx->servername`,
in-place strip of one trailing dot, and the `inet_pton` literal test
deciding whether the SNI handed onward is the stripped string or
absent; then the rest of bootstrap. -/
def tls_connect_common (env : Env) (ctx : Tls) (servername : Option Str) :
    Tls × Int :=
  if ctx.flags_client = false then
    ({ ctx with err := some .notClient }, -1)
  else
    match servername with
    | some sn =>
      if env.strdup_ok = false then
        ({ ctx with err := some .outOfMemory }, -1)
      else
        let stripped := stripTrailingDot sn
        let ctx := { ctx with servername := some stripped }
        let sni : Option Str :=
          if inet_pton4 stripped ≠ true ∧ inet_pton6 stripped ≠ true then
            some stripped
          else
            none
        tls_connect_rest env ctx sni
    | none => tls_connect_rest env ctx none

/-! ## Transport binders (`tls_connect_fds`, `tls_connect_cbs`,
`tls_connect_socket`) -/

/-- `tls_connect_fds` (`tls_client.c:265-288`): validate the two
descriptors, run bootstrap, then install the descriptor-pair transport
(default fd read/write callbacks, null callback argument). -/
def tls_connect_fds (env : Env) (ctx : Tls) (fd_read fd_write : Int)
    (servername : Option Str) : Tls × Int :=
  if fd_read < 0 ∨ fd_write < 0 then
    ({ ctx with err := some .invalidFds }, -1)
  else
    let r := tls_connect_common env ctx servername
    if r.2 ≠ 0 then r
    else
      ({ r.1 with fd_read := some fd_read
                  read_cb := some .fdReadCb
                  fd_write := some fd_write
                  write_cb := some .fdWriteCb
                  cb_arg := none }, 0)

/-- `tls_connect_socket` (`tls_client.c:259-263`): bind the same
descriptor for reading and writing. -/
def tls_connect_socket (env : Env) (ctx : Tls) (s : Int)
    (servername : Option Str) : Tls × Int :=
  tls_connect_fds env ctx s s servername

/-- `tls_connect_cbs` (`tls_client.c:290-311`): run bootstrap first,
then reject null callbacks, then install the callback-pair transport. -/
def tls_connect_cbs (env : Env) (ctx : Tls) (read_cb write_cb : Option Nat)
    (cb_arg : Nat) (servername : Option Str) : Tls × Int :=
  let r := tls_connect_common env ctx servername
  if r.2 ≠ 0 then r
  else if read_cb.isNone ∨ write_cb.isNone then
    ({ r.1 with err := some .noCallbacks }, -1)
  else
    ({ r.1 with read_cb := read_cb.map .userCb
                write_cb := write_cb.map .userCb
                cb_arg := some cb_arg }, 0)

/-! ## Address resolution fallback (`tls_connect_servername`,
`tls_client.c:108-126`) -/

/-- The address family passed in `hints.ai_family`. -/
inductive Family where
  | af_inet
  | af_inet6
  | af_unspec
  deriving DecidableEq

/-- One `getaddrinfo` request as issued by `tls_connect_servername`:
the family plus the `AI_NUMERICHOST` / `AI_ADDRCONFIG` flag bits (host,
port and `SOCK_STREAM` are fixed for a given call). -/
structure GaiReq where
  family : Family
  numerichost : Bool
  addrconfig : Bool
  deriving DecidableEq

/-- One resolved candidate (`struct addrinfo`): family, socket type,
protocol and an abstract address. -/
structure AddrInfo where
  family : Nat
  socktype : Nat
  protocol : Nat
  addr : Nat
  deriving DecidableEq

/-- The resolution fallback chain of `tls_connect_servername`
(`tls_client.c:108-126`): IPv4 numeric-host first, then IPv6
numeric-host, then unconstrained with `AI_ADDRCONFIG`; the result (or
error, via `gai_strerror`) of the final attempt is what surfaces. The
system resolver is the oracle `gai`. -/
def tls_resolve_addr (gai : GaiReq → Except Nat (List AddrInfo)) :
    Except Nat (List AddrInfo) :=
  match gai ⟨.af_inet, true, false⟩ with
  | .ok res => .ok res
  | .error _ =>
    match gai ⟨.af_inet6, true, false⟩ with
    | .ok res => .ok res
    | .error _ => gai ⟨.af_unspec, false, true⟩

/-! ## Candidate-connect loop (`tls_connect_servername`,
`tls_client.c:129-148`) -/

/-- The system socket layer as seen by the connect loop: `socket`
returns a descriptor or an errno, `connect` returns `none` on success
or `some errno` on failure. -/
structure NetEnv where
  sock : AddrInfo → Except Nat Nat
  conn : Nat → AddrInfo → Option Nat

/-- Outcome of the connect loop: the last error set via
`tls_set_error`, the connected descriptor (if any), and the descriptors
opened and closed along the way. -/
structure ConnResult where
  err : Option TlsErr
  sockfd : Option Nat
  opened : List Nat
  closed : List Nat
  deriving DecidableEq

/-- The candidate-connect loop (`tls_client.c:129-148`): iterate the
resolved candidates in order; a failed `socket` records its error and
advances; a failed `connect` records its error, closes the descriptor
and advances; the first successful `connect` breaks out with the
descriptor left open. `err0` is the session's error state on entry. -/
def tls_connect_loop (net : NetEnv) (err0 : Option TlsErr) :
    List AddrInfo → ConnResult
  | [] => ⟨err0, none, [], []⟩
  | a :: rest =>
    match net.sock a with
    | .error eno =>
      tls_connect_loop net (some (.socketFailed eno)) rest
    | .ok fd =>
      match net.conn fd a with
      | some eno =>
        let r := tls_connect_loop net (some (.connectFailed eno)) rest
        ⟨r.err, r.sockfd, fd :: r.opened, fd :: r.closed⟩
      | none => ⟨err0, some fd, [fd], []⟩

/-- A candidate on which the loop fails: `socket` fails outright, or
`connect` on the obtained descriptor fails. -/
def candFails (net : NetEnv) (a : AddrInfo) : Bool :=
  match net.sock a with
  | .error _ => true
  | .ok fd => (net.conn fd a).isSome

/-- The error the loop records when it fails on candidate `a`. -/
def candErr (net : NetEnv) (a : AddrInfo) : Option TlsErr :=
  match net.sock a with
  | .error eno => some (.socketFailed eno)
  | .ok fd => (net.conn fd a).map .connectFailed

/-! ## Helper lemmas -/

/-- The credential binding the keypair `switch` of `tls_connect_common`
performs, as a function of the configured keypair. -/
def credFor : Option Keypair → Option CredBinding
  | none => none
  | some kp =>
    if kp.key_type = BR_KEYTYPE_RSA then some .rsaPkcs1
    else if kp.key_type = BR_KEYTYPE_EC then some .ecEcdsaAsn1
    else none

theorem isIPLiteral_false_split {l : Str} (h : isIPLiteral l = false) :
    inet_pton4 l = false ∧ inet_pton6 l = false := by
  unfold isIPLiteral at h
  exact Bool.or_eq_false_iff.mp h

/-- The keypair `switch` on the freshly configured connection yields
exactly the binding described by `credFor`. -/
theorem keypairSwitch_base (okp : Option Keypair) :
    keypairSwitch okp ⟨true, none, none⟩ = ⟨true, credFor okp, none⟩ := by
  cases okp with
  | none => rfl
  | some kp =>
    simp only [keypairSwitch, credFor, BR_KEYTYPE_RSA, BR_KEYTYPE_EC]
    by_cases hr : kp.key_type = 1
    · simp [hr]
    · by_cases he : kp.key_type = 2 <;> simp [hr, he]

/-- On the all-checks-pass path, `tls_connect_common` canonicalizes the
servername into the session, allocates and fully configures the engine
connection, resets it with the stripped SNI, and marks the session
connected. -/
theorem tls_connect_common_success (env : Env) (ctx : Tls) (s : Str)
    (hc : ctx.flags_client = true)
    (ho : ctx.config.ocsp_require_stapling = false)
    (hs : env.strdup_ok = true)
    (hn : env.conn_new_ok = true)
    (hx : env.configure_x509_ok = true)
    (hl : isIPLiteral (stripTrailingDot s) = false) :
    tls_connect_common env ctx (some s) =
      ({ ctx with
          servername := some (stripTrailingDot s)
          conn := some ⟨true, credFor ctx.config.keypair,
                        some (some (stripTrailingDot s))⟩
          state_connected := true }, 0) := by
  obtain ⟨h4, h6⟩ := isIPLiteral_false_split hl
  simp [tls_connect_common, tls_connect_rest, hc, ho, hs, hn, hx, h4, h6,
    keypairSwitch_base]

/-- The post-canonicalization part of bootstrap never touches the
`servername` field. -/
theorem tls_connect_rest_servername (env : Env) (ctx : Tls)
    (sni : Option Str) :
    ((tls_connect_rest env ctx sni).1).servername = ctx.servername := by
  simp only [tls_connect_rest]
  repeat' split
  all_goals rfl

/-- The connection field after the post-canonicalization part of
bootstrap: untouched, freshly allocated, configured but not reset, or
reset with exactly the SNI value that part was handed. -/
theorem tls_connect_rest_conn_cases (env : Env) (ctx : Tls)
    (sni : Option Str) :
    ((tls_connect_rest env ctx sni).1).conn = ctx.conn ∨
    ((tls_connect_rest env ctx sni).1).conn = some ⟨false, none, none⟩ ∨
    ((tls_connect_rest env ctx sni).1).conn =
      some ⟨true, credFor ctx.config.keypair, none⟩ ∨
    ((tls_connect_rest env ctx sni).1).conn =
      some ⟨true, credFor ctx.config.keypair, some sni⟩ := by
  simp only [tls_connect_rest, keypairSwitch_base]
  repeat' split
  all_goals simp

/-- Unfolding of `tls_connect_common` for a non-null servername when
the role check and `strdup` succeed: the stripped name is stored and
the literal test selects the SNI handed to the rest of bootstrap. -/
theorem tls_connect_common_some (env : Env) (ctx : Tls) (s : Str)
    (hc : ctx.flags_client = true) (hs : env.strdup_ok = true) :
    tls_connect_common env ctx (some s) =
      tls_connect_rest env { ctx with servername := some (stripTrailingDot s) }
        (if inet_pton4 (stripTrailingDot s) ≠ true ∧
            inet_pton6 (stripTrailingDot s) ≠ true
         then some (stripTrailingDot s) else none) := by
  simp [tls_connect_common, hc, hs]

/-- Companion to `tls_connect_common_success` for the case where the
stripped servername is an address literal and verification is off: the
session still succeeds, but the engine is reset with an absent SNI. -/
theorem tls_connect_common_success_literal (env : Env) (ctx : Tls) (s : Str)
    (hc : ctx.flags_client = true)
    (ho : ctx.config.ocsp_require_stapling = false)
    (hs : env.strdup_ok = true)
    (hn : env.conn_new_ok = true)
    (hx : env.configure_x509_ok = true)
    (hl : isIPLiteral (stripTrailingDot s) = true)
    (hv : ctx.config.verify_name = false) :
    tls_connect_common env ctx (some s) =
      ({ ctx with
          servername := some (stripTrailingDot s)
          conn := some ⟨true, credFor ctx.config.keypair, some none⟩
          state_connected := true }, 0) := by
  have h46 : ¬(inet_pton4 (stripTrailingDot s) ≠ true ∧
               inet_pton6 (stripTrailingDot s) ≠ true) := by
    unfold isIPLiteral at hl
    rcases Bool.or_eq_true_iff.mp hl with h | h <;> simp [h]
  rw [tls_connect_common_some env ctx s hc hs, if_neg h46]
  simp [tls_connect_rest, ho, hn, hx, hv, keypairSwitch_base]

/-- C1: for every non-null servername input, canonicalization first
strips exactly one trailing dot, then tests the stripped string for
IPv4/IPv6 literal syntax; the SNI handed to `br_ssl_client_reset` is
absent when the stripped string is a literal and is the stripped string
otherwise, while bootstrap succeeds. -/
theorem C1_sni_canonicalization (env : Env) (ctx : Tls) (s : Str)
    (hc : ctx.flags_client = true)
    (ho : ctx.config.ocsp_require_stapling = false)
    (hs : env.strdup_ok = true)
    (hn : env.conn_new_ok = true)
    (hx : env.configure_x509_ok = true)
    (hv : ctx.config.verify_name = false ∨
          isIPLiteral (stripTrailingDot s) = false) :
    (tls_connect_common env ctx (some s)).2 = 0 ∧
    ∃ c : Conn, ((tls_connect_common env ctx (some s)).1).conn = some c ∧
      c.reset_sni = some (if isIPLiteral (stripTrailingDot s) = true
                          then none else some (stripTrailingDot s)) := by
  by_cases hl : isIPLiteral (stripTrailingDot s) = true
  · have hvf : ctx.config.verify_name = false := by
      rcases hv with h | h
      · exact h
      · rw [hl] at h; cases h
    rw [tls_connect_common_success_literal env ctx s hc ho hs hn hx hl hvf]
    simp [hl]
  · have hlf : isIPLiteral (stripTrailingDot s) = false :=
      Bool.not_eq_true _ ▸ Bool.eq_false_iff.mpr hl
    rw [tls_connect_common_success env ctx s hc ho hs hn hx hlf]
    simp [hlf]

/-- Witness for C1: the FQDN `"example.com."` yields the SNI
`"example.com"`, and the literal `"192.0.2.1"` yields an absent SNI. -/
theorem C1_witness :
    ((tls_connect_common ⟨true, true, true⟩ (tls_client_new ⟨false, false, none⟩)
        (some ("example.com.".data))).2 = 0 ∧
      ∃ c : Conn,
        ((tls_connect_common ⟨true, true, true⟩
            (tls_client_new ⟨false, false, none⟩)
            (some ("example.com.".data))).1).conn = some c ∧
        c.reset_sni = some (some ("example.com".data))) ∧
    ((tls_connect_common ⟨true, true, true⟩ (tls_client_new ⟨false, false, none⟩)
        (some ("192.0.2.1".data))).2 = 0 ∧
      ∃ c : Conn,
        ((tls_connect_common ⟨true, true, true⟩
            (tls_client_new ⟨false, false, none⟩)
            (some ("192.0.2.1".data))).1).conn = some c ∧
        c.reset_sni = some none) := by
  constructor
  · have h := C1_sni_canonicalization ⟨true, true, true⟩
      (tls_client_new ⟨false, false, none⟩) ("example.com.".data)
      rfl rfl rfl rfl rfl (Or.inl rfl)
    rw [show (if isIPLiteral (stripTrailingDot ("example.com.".data)) = true
              then (none : Option Str)
              else some (stripTrailingDot ("example.com.".data)))
          = some ("example.com".data) from by decide] at h
    exact h
  · have h := C1_sni_canonicalization ⟨true, true, true⟩
      (tls_client_new ⟨false, false, none⟩) ("192.0.2.1".data)
      rfl rfl rfl rfl rfl (Or.inl rfl)
    rw [show (if isIPLiteral (stripTrailingDot ("192.0.2.1".data)) = true
              then (none : Option Str)
              else some (stripTrailingDot ("192.0.2.1".data)))
          = none from by decide] at h
    exact h

/-- C2 is false as stated: bootstrapping a fresh client session with
the literal servername `"192.0.2.1"` leaves the session's `servername`
field holding that literal string — the field is not absent, only the
SNI handed to the engine is. -/
theorem C2_counterexample :
    ((tls_connect_common ⟨true, true, true⟩ (tls_client_new ⟨false, false, none⟩)
        (some ("192.0.2.1".data))).1).servername = some ("192.0.2.1".data) ∧
    isIPLiteral ("192.0.2.1".data) = true := by
  exact ⟨by decide, by decide⟩

/-- C2 (amended): after bootstrap with a non-null input the session's
`servername` field always holds the stripped input string (even when
that string is a literal address), and the SNI value actually handed to
the engine's reset is never a syntactically valid IPv4 or IPv6
literal. -/
theorem C2_amended (env : Env) (ctx : Tls) (s : Str)
    (hc : ctx.flags_client = true)
    (hs : env.strdup_ok = true)
    (h0 : ctx.conn = none) :
    ((tls_connect_common env ctx (some s)).1).servername
        = some (stripTrailingDot s) ∧
    ∀ (c : Conn) (t : Str),
      ((tls_connect_common env ctx (some s)).1).conn = some c →
      c.reset_sni = some (some t) → isIPLiteral t = false := by
  rw [tls_connect_common_some env ctx s hc hs]
  constructor
  · rw [tls_connect_rest_servername]
  · intro c t hcc hrs
    rcases tls_connect_rest_conn_cases env
        { ctx with servername := some (stripTrailingDot s) }
        (if inet_pton4 (stripTrailingDot s) ≠ true ∧
            inet_pton6 (stripTrailingDot s) ≠ true
         then some (stripTrailingDot s) else none) with h | h | h | h
    · rw [h] at hcc
      simp only [h0] at hcc
      cases hcc
    · rw [h] at hcc
      cases hcc
      simp at hrs
    · rw [h] at hcc
      cases hcc
      simp at hrs
    · rw [h] at hcc
      cases hcc
      simp only [Conn.reset_sni] at hrs
      by_cases h46 : inet_pton4 (stripTrailingDot s) ≠ true ∧
          inet_pton6 (stripTrailingDot s) ≠ true
      · rw [if_pos h46] at hrs
        cases hrs
        obtain ⟨h4, h6⟩ := h46
        unfold isIPLiteral
        simp [Bool.not_eq_true] at h4 h6
        simp [h4, h6]
      · rw [if_neg h46] at hrs
        cases hrs

/-- C3 is false as stated: the hostname `"a.."` (two trailing dots)
canonicalizes to servername `"a."`, which still ends with a trailing
dot — only one trailing dot is stripped. -/
theorem C3_counterexample :
    ((tls_connect_common ⟨true, true, true⟩ (tls_client_new ⟨false, false, none⟩)
        (some ['a', '.', '.'])).1).servername = some ['a', '.'] ∧
    endsDot ['a', '.'] = true := by
  exact ⟨by decide, by decide⟩

/-- Stripping one trailing dot removes the trailing dot entirely
whenever the input does not end in two dots. -/
theorem stripTrailingDot_no_dot (l : Str) (h : endsTwoDots l = false) :
    endsDot (stripTrailingDot l) = false := by
  unfold endsTwoDots at h
  unfold stripTrailingDot endsDot at *
  by_cases hd : l.getLast? = some '.'
  · rw [if_pos hd]
    have hb : (l.getLast? == some '.') = true := by simp [hd]
    rw [hb, Bool.true_and] at h
    exact h
  · rw [if_neg hd]
    exact beq_eq_false_iff_ne.mpr hd

/-- C3 (amended): after canonicalization the session's `servername`
never ends with a trailing dot, provided the caller-supplied hostname
did not end in two (or more) trailing dots; exactly one trailing dot is
stripped. -/
theorem C3_amended (env : Env) (ctx : Tls) (s : Str)
    (hc : ctx.flags_client = true)
    (hs : env.strdup_ok = true)
    (h2 : endsTwoDots s = false) :
    ((tls_connect_common env ctx (some s)).1).servername
        = some (stripTrailingDot s) ∧
    endsDot (stripTrailingDot s) = false := by
  rw [tls_connect_common_some env ctx s hc hs]
  exact ⟨tls_connect_rest_servername _ _ _, stripTrailingDot_no_dot s h2⟩

/-- Witness for the amended C2 at the literal input `"192.0.2.1"` on a
fresh client session. -/
theorem C2_amended_witness :
    ((tls_connect_common ⟨true, true, true⟩ (tls_client_new ⟨false, false, none⟩)
        (some ("192.0.2.1".data))).1).servername
        = some (stripTrailingDot ("192.0.2.1".data)) ∧
    ∀ (c : Conn) (t : Str),
      ((tls_connect_common ⟨true, true, true⟩
          (tls_client_new ⟨false, false, none⟩)
          (some ("192.0.2.1".data))).1).conn = some c →
      c.reset_sni = some (some t) → isIPLiteral t = false :=
  C2_amended ⟨true, true, true⟩ (tls_client_new ⟨false, false, none⟩)
    ("192.0.2.1".data) rfl rfl rfl

/-- Witness for the amended C3 at the FQDN input `"example.com."` on a
fresh client session. -/
theorem C3_amended_witness :
    endsTwoDots ("example.com.".data) = false ∧
    (((tls_connect_common ⟨true, true, true⟩
          (tls_client_new ⟨false, false, none⟩)
          (some ("example.com.".data))).1).servername
        = some (stripTrailingDot ("example.com.".data)) ∧
      endsDot (stripTrailingDot ("example.com.".data)) = false) :=
  ⟨by decide,
    C3_amended ⟨true, true, true⟩ (tls_client_new ⟨false, false, none⟩)
      ("example.com.".data) rfl rfl (by decide)⟩

/-- Success shape of the descriptor-pair entry point: valid descriptors
plus a successful bootstrap install the descriptor transport. -/
theorem tls_connect_fds_success (env : Env) (ctx : Tls) (s : Str)
    (fr fw : Int)
    (hc : ctx.flags_client = true)
    (ho : ctx.config.ocsp_require_stapling = false)
    (hs : env.strdup_ok = true)
    (hn : env.conn_new_ok = true)
    (hx : env.configure_x509_ok = true)
    (hl : isIPLiteral (stripTrailingDot s) = false)
    (hfr : 0 ≤ fr) (hfw : 0 ≤ fw) :
    tls_connect_fds env ctx fr fw (some s) =
      ({ ctx with
          servername := some (stripTrailingDot s)
          conn := some ⟨true, credFor ctx.config.keypair,
                        some (some (stripTrailingDot s))⟩
          state_connected := true
          fd_read := some fr
          read_cb := some .fdReadCb
          fd_write := some fw
          write_cb := some .fdWriteCb
          cb_arg := none }, 0) := by
  have h := tls_connect_common_success env ctx s hc ho hs hn hx hl
  simp [tls_connect_fds, h, not_lt.mpr hfr, not_lt.mpr hfw]

/-- Success shape of the callback-pair entry point: non-null callbacks
plus a successful bootstrap install the callback transport. -/
theorem tls_connect_cbs_success (env : Env) (ctx : Tls) (s : Str)
    (rc wc arg : Nat)
    (hc : ctx.flags_client = true)
    (ho : ctx.config.ocsp_require_stapling = false)
    (hs : env.strdup_ok = true)
    (hn : env.conn_new_ok = true)
    (hx : env.configure_x509_ok = true)
    (hl : isIPLiteral (stripTrailingDot s) = false) :
    tls_connect_cbs env ctx (some rc) (some wc) arg (some s) =
      ({ ctx with
          servername := some (stripTrailingDot s)
          conn := some ⟨true, credFor ctx.config.keypair,
                        some (some (stripTrailingDot s))⟩
          state_connected := true
          read_cb := some (.userCb rc)
          write_cb := some (.userCb wc)
          cb_arg := some arg }, 0) := by
  have h := tls_connect_common_success env ctx s hc ho hs hn hx hl
  simp [tls_connect_cbs, h]

/-- C4 is false as stated: on a fresh client session a descriptor-pair
bind succeeds and a subsequent callback-pair bind on the same session
also succeeds — the second bootstrap is not rejected, and the
callback-pair transport replaces the descriptor-pair one. -/
theorem C4_counterexample :
    ((tls_connect_fds ⟨true, true, true⟩ (tls_client_new ⟨false, false, none⟩)
        3 3 (some ("example.com".data))).2 = 0) ∧
    ((tls_connect_cbs ⟨true, true, true⟩
        (tls_connect_fds ⟨true, true, true⟩ (tls_client_new ⟨false, false, none⟩)
          3 3 (some ("example.com".data))).1
        (some 7) (some 8) 0 (some ("example.com".data))).2 = 0) ∧
    ((tls_connect_cbs ⟨true, true, true⟩
        (tls_connect_fds ⟨true, true, true⟩ (tls_client_new ⟨false, false, none⟩)
          3 3 (some ("example.com".data))).1
        (some 7) (some 8) 0 (some ("example.com".data))).1).read_cb
      = some (.userCb 7) := by
  exact ⟨by decide, by decide, by decide⟩

/-- C4 (amended): bootstrap is not guarded against re-invocation.
Whenever the environment and configuration let bootstrap succeed, the
descriptor-pair entry point succeeds, and a subsequent callback-pair
invocation on the resulting session succeeds as well, re-running
bootstrap and overwriting the transport with the callback pair. -/
theorem C4_amended (env : Env) (ctx : Tls) (s : Str) (fr fw : Int)
    (rc wc arg : Nat)
    (hc : ctx.flags_client = true)
    (ho : ctx.config.ocsp_require_stapling = false)
    (hs : env.strdup_ok = true)
    (hn : env.conn_new_ok = true)
    (hx : env.configure_x509_ok = true)
    (hl : isIPLiteral (stripTrailingDot s) = false)
    (hfr : 0 ≤ fr) (hfw : 0 ≤ fw) :
    (tls_connect_fds env ctx fr fw (some s)).2 = 0 ∧
    (tls_connect_cbs env (tls_connect_fds env ctx fr fw (some s)).1
        (some rc) (some wc) arg (some s)).2 = 0 ∧
    ((tls_connect_cbs env (tls_connect_fds env ctx fr fw (some s)).1
        (some rc) (some wc) arg (some s)).1).read_cb = some (.userCb rc) ∧
    ((tls_connect_cbs env (tls_connect_fds env ctx fr fw (some s)).1
        (some rc) (some wc) arg (some s)).1).write_cb = some (.userCb wc) := by
  have h1 := tls_connect_fds_success env ctx s fr fw hc ho hs hn hx hl hfr hfw
  have hc2 : (tls_connect_fds env ctx fr fw (some s)).1.flags_client = true := by
    rw [h1]; exact hc
  have ho2 : ((tls_connect_fds env ctx fr fw
      (some s)).1).config.ocsp_require_stapling = false := by
    rw [h1]; exact ho
  have h2 := tls_connect_cbs_success env
    (tls_connect_fds env ctx fr fw (some s)).1 s rc wc arg hc2 ho2 hs hn hx hl
  refine ⟨by rw [h1], ?_, ?_, ?_⟩ <;> rw [h2]

/-- Witness for the amended C4: descriptor bind then callback bind on a
fresh client session, both succeeding. -/
theorem C4_amended_witness :
    (tls_connect_fds ⟨true, true, true⟩ (tls_client_new ⟨false, false, none⟩)
        3 3 (some ("example.com".data))).2 = 0 ∧
    (tls_connect_cbs ⟨true, true, true⟩
        (tls_connect_fds ⟨true, true, true⟩ (tls_client_new ⟨false, false, none⟩)
          3 3 (some ("example.com".data))).1
        (some 7) (some 8) 0 (some ("example.com".data))).2 = 0 ∧
    ((tls_connect_cbs ⟨true, true, true⟩
        (tls_connect_fds ⟨true, true, true⟩ (tls_client_new ⟨false, false, none⟩)
          3 3 (some ("example.com".data))).1
        (some 7) (some 8) 0 (some ("example.com".data))).1).read_cb
      = some (.userCb 7) ∧
    ((tls_connect_cbs ⟨true, true, true⟩
        (tls_connect_fds ⟨true, true, true⟩ (tls_client_new ⟨false, false, none⟩)
          3 3 (some ("example.com".data))).1
        (some 7) (some 8) 0 (some ("example.com".data))).1).write_cb
      = some (.userCb 8) :=
  C4_amended ⟨true, true, true⟩ (tls_client_new ⟨false, false, none⟩)
    ("example.com".data) 3 3 7 8 0 rfl rfl rfl rfl rfl (by decide)
    (by decide) (by decide)

/-- C5 is false as stated: a configured keypair whose key type is
neither RSA nor EC (here tag 16, `BR_KEYTYPE_KEYX`-style) does not make
bootstrap report a configuration error — bootstrap succeeds with no
error recorded, and no credential is bound on the connection. -/
theorem C5_counterexample :
    ((tls_connect_common ⟨true, true, true⟩
        (tls_client_new ⟨false, false, some ⟨16⟩⟩)
        (some ("example.com".data))).2 = 0) ∧
    ((tls_connect_common ⟨true, true, true⟩
        (tls_client_new ⟨false, false, some ⟨16⟩⟩)
        (some ("example.com".data))).1).err = none ∧
    ((tls_connect_common ⟨true, true, true⟩
        (tls_client_new ⟨false, false, some ⟨16⟩⟩)
        (some ("example.com".data))).1).conn
      = some ⟨true, none, some (some ("example.com".data))⟩ := by
  exact ⟨by decide, by decide, by decide⟩

/-- C5 (amended): when a keypair is configured, RSA keys are bound with
PKCS#1 v1.5 signing and EC keys with ASN.1 ECDSA signing; a keypair of
any other key type is silently skipped — no credential is bound and
bootstrap continues successfully rather than reporting a configuration
error. -/
theorem C5_amended (env : Env) (ctx : Tls) (s : Str) (kp : Keypair)
    (hc : ctx.flags_client = true)
    (ho : ctx.config.ocsp_require_stapling = false)
    (hs : env.strdup_ok = true)
    (hn : env.conn_new_ok = true)
    (hx : env.configure_x509_ok = true)
    (hl : isIPLiteral (stripTrailingDot s) = false)
    (hkp : ctx.config.keypair = some kp) :
    (tls_connect_common env ctx (some s)).2 = 0 ∧
    ((tls_connect_common env ctx (some s)).1).err = ctx.err ∧
    ∃ c : Conn, ((tls_connect_common env ctx (some s)).1).conn = some c ∧
      c.cred = (if kp.key_type = BR_KEYTYPE_RSA then some .rsaPkcs1
                else if kp.key_type = BR_KEYTYPE_EC then some .ecEcdsaAsn1
                else none) := by
  rw [tls_connect_common_success env ctx s hc ho hs hn hx hl]
  refine ⟨rfl, rfl, _, rfl, ?_⟩
  simp [credFor, hkp]

/-- Witness for the amended C5 at key-type tag 16 (neither RSA nor EC)
on a fresh client session: no credential bound, bootstrap succeeds. -/
theorem C5_amended_witness :
    (tls_connect_common ⟨true, true, true⟩
        (tls_client_new ⟨false, false, some ⟨16⟩⟩)
        (some ("example.com".data))).2 = 0 ∧
    ((tls_connect_common ⟨true, true, true⟩
        (tls_client_new ⟨false, false, some ⟨16⟩⟩)
        (some ("example.com".data))).1).err
      = (tls_client_new ⟨false, false, some ⟨16⟩⟩).err ∧
    ∃ c : Conn,
      ((tls_connect_common ⟨true, true, true⟩
          (tls_client_new ⟨false, false, some ⟨16⟩⟩)
          (some ("example.com".data))).1).conn = some c ∧
      c.cred = (if (16 : Nat) = BR_KEYTYPE_RSA then some CredBinding.rsaPkcs1
                else if (16 : Nat) = BR_KEYTYPE_EC then some CredBinding.ecEcdsaAsn1
                else none) :=
  C5_amended ⟨true, true, true⟩ (tls_client_new ⟨false, false, some ⟨16⟩⟩)
    ("example.com".data) ⟨16⟩ rfl rfl rfl rfl rfl (by decide) rfl

/-- C6 is false as stated: when X.509 configuration fails after the
engine connection object was allocated, bootstrap fails but the
allocated connection object is not released — it remains attached to
the session. -/
theorem C6_counterexample :
    ((tls_connect_common ⟨true, true, false⟩
        (tls_client_new ⟨false, false, none⟩)
        (some ("example.com".data))).2 = -1) ∧
    ((tls_connect_common ⟨true, true, false⟩
        (tls_client_new ⟨false, false, none⟩)
        (some ("example.com".data))).1).conn = some ⟨false, none, none⟩ := by
  exact ⟨by decide, by decide⟩

/-- The canonicalized SNI value derived by `tls_connect_common`
(`tls_client.c:182-209`) from its servername argument: absent for a
null input, and for a non-null input the one-dot-stripped string
unless that string is an IPv4/IPv6 literal, in which case absent. -/
def canonSNI : Option Str → Option Str
  | none => none
  | some s =>
    if isIPLiteral (stripTrailingDot s) = true then none
    else some (stripTrailingDot s)

/-- C6 (amended): if bootstrap fails at any step after the engine
connection object has been allocated — X.509 configuration failure or
the verification-required/absent-SNI rejection, the two such steps —
the session is left un-connected with a descriptive error, but the
allocated connection object is not released on the failing path: it
stays attached to the session, its release being deferred to session
teardown outside this core. -/
theorem C6_amended (env : Env) (ctx : Tls) (sn : Option Str)
    (hc : ctx.flags_client = true)
    (ho : ctx.config.ocsp_require_stapling = false)
    (hs : env.strdup_ok = true)
    (hn : env.conn_new_ok = true)
    (hst : ctx.state_connected = false)
    (hfail : env.configure_x509_ok = false ∨
             (env.configure_x509_ok = true ∧ ctx.config.verify_name = true ∧
              canonSNI sn = none)) :
    (tls_connect_common env ctx sn).2 = -1 ∧
    ((tls_connect_common env ctx sn).1).state_connected = false ∧
    ((tls_connect_common env ctx sn).1).err
      = some (if env.configure_x509_ok = false then TlsErr.x509Failed
              else TlsErr.serverNameNotSpecified) ∧
    (((tls_connect_common env ctx sn).1).conn).isSome = true := by
  rcases hfail with hx | ⟨hx, hv, habs⟩
  · cases sn with
    | none =>
      have hu : tls_connect_common env ctx none =
          tls_connect_rest env ctx none := by
        simp [tls_connect_common, hc]
      rw [hu]
      simp [tls_connect_rest, ho, hn, hx, hst]
    | some s =>
      rw [tls_connect_common_some env ctx s hc hs]
      simp [tls_connect_rest, ho, hn, hx, hst]
  · cases sn with
    | none =>
      have hu : tls_connect_common env ctx none =
          tls_connect_rest env ctx none := by
        simp [tls_connect_common, hc]
      rw [hu]
      simp [tls_connect_rest, ho, hn, hx, hv, hst, keypairSwitch_base]
    | some s =>
      have hl : isIPLiteral (stripTrailingDot s) = true := by
        simp only [canonSNI] at habs
        by_cases h : isIPLiteral (stripTrailingDot s) = true
        · exact h
        · rw [if_neg h] at habs
          cases habs
      have h46 : ¬(inet_pton4 (stripTrailingDot s) ≠ true ∧
                   inet_pton6 (stripTrailingDot s) ≠ true) := by
        unfold isIPLiteral at hl
        rcases Bool.or_eq_true_iff.mp hl with h | h <;> simp [h]
      rw [tls_connect_common_some env ctx s hc hs, if_neg h46]
      simp [tls_connect_rest, ho, hn, hx, hv, hst, keypairSwitch_base]

/-- Witness for the amended C6 at both post-allocation failing steps on
fresh client sessions: an X.509 configuration failure, and a
verification-required bootstrap with a null servername; both fail with
the corresponding descriptive error and leave the allocated connection
attached. -/
theorem C6_amended_witness :
    ((tls_connect_common ⟨true, true, false⟩ (tls_client_new ⟨false, false, none⟩)
        (some ("example.com".data))).2 = -1 ∧
      ((tls_connect_common ⟨true, true, false⟩
          (tls_client_new ⟨false, false, none⟩)
          (some ("example.com".data))).1).state_connected = false ∧
      ((tls_connect_common ⟨true, true, false⟩
          (tls_client_new ⟨false, false, none⟩)
          (some ("example.com".data))).1).err = some TlsErr.x509Failed ∧
      (((tls_connect_common ⟨true, true, false⟩
          (tls_client_new ⟨false, false, none⟩)
          (some ("example.com".data))).1).conn).isSome = true) ∧
    ((tls_connect_common ⟨true, true, true⟩ (tls_client_new ⟨false, true, none⟩)
        none).2 = -1 ∧
      ((tls_connect_common ⟨true, true, true⟩
          (tls_client_new ⟨false, true, none⟩)
          none).1).state_connected = false ∧
      ((tls_connect_common ⟨true, true, true⟩
          (tls_client_new ⟨false, true, none⟩)
          none).1).err = some TlsErr.serverNameNotSpecified ∧
      (((tls_connect_common ⟨true, true, true⟩
          (tls_client_new ⟨false, true, none⟩)
          none).1).conn).isSome = true) := by
  constructor
  · exact C6_amended ⟨true, true, false⟩ (tls_client_new ⟨false, false, none⟩)
      (some ("example.com".data)) rfl rfl rfl rfl rfl (Or.inl rfl)
  · exact C6_amended ⟨true, true, true⟩ (tls_client_new ⟨false, true, none⟩)
      none rfl rfl rfl rfl rfl (Or.inr ⟨rfl, rfl, rfl⟩)

/-- C9: when the configuration requires server-identity verification
and the canonicalized servername is absent — either the input was null,
or it was a literal address suppressed by canonicalization — bootstrap
fails with the "server name not specified" configuration error and the
session is left not-connected. -/
theorem C9_verify_requires_name (env : Env) (ctx : Tls) (sn : Option Str)
    (hc : ctx.flags_client = true)
    (ho : ctx.config.ocsp_require_stapling = false)
    (hs : env.strdup_ok = true)
    (hn : env.conn_new_ok = true)
    (hx : env.configure_x509_ok = true)
    (hv : ctx.config.verify_name = true)
    (hst : ctx.state_connected = false)
    (habsent : sn = none ∨
               ∃ s, sn = some s ∧ isIPLiteral (stripTrailingDot s) = true) :
    (tls_connect_common env ctx sn).2 = -1 ∧
    ((tls_connect_common env ctx sn).1).err = some .serverNameNotSpecified ∧
    ((tls_connect_common env ctx sn).1).state_connected = false := by
  rcases habsent with rfl | ⟨s, rfl, hl⟩
  · have hu : tls_connect_common env ctx none = tls_connect_rest env ctx none := by
      simp [tls_connect_common, hc]
    rw [hu]
    simp [tls_connect_rest, ho, hn, hx, hv, hst]
  · have h46 : ¬(inet_pton4 (stripTrailingDot s) ≠ true ∧
                 inet_pton6 (stripTrailingDot s) ≠ true) := by
      unfold isIPLiteral at hl
      rcases Bool.or_eq_true_iff.mp hl with h | h <;> simp [h]
    rw [tls_connect_common_some env ctx s hc hs, if_neg h46]
    simp [tls_connect_rest, ho, hn, hx, hv, hst]

/-- Witness for C9: a fresh client session with verification required
and the literal servername `"192.0.2.1"`: bootstrap fails with the
"server name not specified" error and the session stays
not-connected. -/
theorem C9_witness :
    (tls_connect_common ⟨true, true, true⟩ (tls_client_new ⟨false, true, none⟩)
        (some ("192.0.2.1".data))).2 = -1 ∧
    ((tls_connect_common ⟨true, true, true⟩
        (tls_client_new ⟨false, true, none⟩)
        (some ("192.0.2.1".data))).1).err
      = some TlsErr.serverNameNotSpecified ∧
    ((tls_connect_common ⟨true, true, true⟩
        (tls_client_new ⟨false, true, none⟩)
        (some ("192.0.2.1".data))).1).state_connected = false :=
  C9_verify_requires_name ⟨true, true, true⟩ (tls_client_new ⟨false, true, none⟩)
    (some ("192.0.2.1".data)) rfl rfl rfl rfl rfl rfl rfl
    (Or.inr ⟨"192.0.2.1".data, rfl, by decide⟩)

/-- C10: calling `tls_connect_cbs` with a null read or write callback
on a session whose bootstrap succeeds returns failure with the
"no callbacks provided" error — yet bootstrap has already completed by
then: the engine connection object is allocated (and reset) and the
session is marked connected despite the error return. -/
theorem C10_cbs_null_after_bootstrap (env : Env) (ctx : Tls) (s : Str)
    (rc wc : Option Nat) (arg : Nat)
    (hc : ctx.flags_client = true)
    (ho : ctx.config.ocsp_require_stapling = false)
    (hs : env.strdup_ok = true)
    (hn : env.conn_new_ok = true)
    (hx : env.configure_x509_ok = true)
    (hl : isIPLiteral (stripTrailingDot s) = false)
    (hnull : rc = none ∨ wc = none) :
    (tls_connect_cbs env ctx rc wc arg (some s)).2 = -1 ∧
    ((tls_connect_cbs env ctx rc wc arg (some s)).1).err = some .noCallbacks ∧
    ((tls_connect_cbs env ctx rc wc arg (some s)).1).conn
      = some ⟨true, credFor ctx.config.keypair,
              some (some (stripTrailingDot s))⟩ ∧
    ((tls_connect_cbs env ctx rc wc arg (some s)).1).state_connected = true := by
  have h := tls_connect_common_success env ctx s hc ho hs hn hx hl
  rcases hnull with rfl | rfl <;> simp [tls_connect_cbs, h]

/-- Witness for C10: a null read callback on a fresh client session —
the call fails, yet the connection object exists and the session is
marked connected. -/
theorem C10_witness :
    (tls_connect_cbs ⟨true, true, true⟩ (tls_client_new ⟨false, false, none⟩)
        none (some 8) 0 (some ("example.com".data))).2 = -1 ∧
    ((tls_connect_cbs ⟨true, true, true⟩ (tls_client_new ⟨false, false, none⟩)
        none (some 8) 0 (some ("example.com".data))).1).err
      = some TlsErr.noCallbacks ∧
    ((tls_connect_cbs ⟨true, true, true⟩ (tls_client_new ⟨false, false, none⟩)
        none (some 8) 0 (some ("example.com".data))).1).conn
      = some ⟨true, credFor (tls_client_new ⟨false, false, none⟩).config.keypair,
              some (some (stripTrailingDot ("example.com".data)))⟩ ∧
    ((tls_connect_cbs ⟨true, true, true⟩ (tls_client_new ⟨false, false, none⟩)
        none (some 8) 0 (some ("example.com".data))).1).state_connected = true :=
  C10_cbs_null_after_bootstrap ⟨true, true, true⟩
    (tls_client_new ⟨false, false, none⟩) ("example.com".data)
    none (some 8) 0 rfl rfl rfl rfl rfl (by decide) (Or.inl rfl)

/-- C7: address resolution tries IPv4-numeric, then IPv6-numeric, then
unconstrained `AI_ADDRCONFIG` resolution, in that order, stopping at
the first success; when all three fail the surfaced outcome is exactly
that of the final unconstrained attempt, the numeric attempts' errors
being discarded. -/
theorem C7_resolver_fallback :
    (∀ (gai : GaiReq → Except Nat (List AddrInfo)) (res : List AddrInfo),
        gai ⟨.af_inet, true, false⟩ = .ok res →
        tls_resolve_addr gai = .ok res) ∧
    (∀ (gai : GaiReq → Except Nat (List AddrInfo)) (e : Nat)
        (res : List AddrInfo),
        gai ⟨.af_inet, true, false⟩ = .error e →
        gai ⟨.af_inet6, true, false⟩ = .ok res →
        tls_resolve_addr gai = .ok res) ∧
    (∀ (gai : GaiReq → Except Nat (List AddrInfo)) (e1 e2 : Nat),
        gai ⟨.af_inet, true, false⟩ = .error e1 →
        gai ⟨.af_inet6, true, false⟩ = .error e2 →
        tls_resolve_addr gai = gai ⟨.af_unspec, false, true⟩) := by
  refine ⟨?_, ?_, ?_⟩
  · intro gai res h
    simp [tls_resolve_addr, h]
  · intro gai e res h1 h2
    simp [tls_resolve_addr, h1, h2]
  · intro gai e1 e2 h1 h2
    simp [tls_resolve_addr, h1, h2]

/-- A resolver on which every attempt fails, with a distinct error per
request shape, to exhibit which error the fallback chain surfaces. -/
def gaiAllFail : GaiReq → Except Nat (List AddrInfo) := fun r =>
  match r.family with
  | .af_inet => .error 1
  | .af_inet6 => .error 2
  | .af_unspec => .error 3

/-- Witness for C7: when the IPv4-numeric attempt fails with error 1
and the IPv6-numeric attempt with error 2, the surfaced error is error
3 of the unconstrained attempt. -/
theorem C7_witness : tls_resolve_addr gaiAllFail = Except.error 3 :=
  (C7_resolver_fallback.2.2 gaiAllFail 1 2 rfl rfl).trans rfl

/-- A prefix of failing candidates is worked through without affecting
which candidate the connect loop succeeds on; helper for C8. -/
theorem tls_connect_loop_first (net : NetEnv) :
    ∀ (pre : List AddrInfo) (err0 : Option TlsErr) (c : AddrInfo)
      (post : List AddrInfo) (fd : Nat),
      (∀ a ∈ pre, candFails net a = true) →
      net.sock c = .ok fd → net.conn fd c = none →
      tls_connect_loop net err0 (pre ++ c :: post) =
        tls_connect_loop net err0 (pre ++ [c]) ∧
      (tls_connect_loop net err0 (pre ++ c :: post)).sockfd = some fd := by
  intro pre
  induction pre with
  | nil =>
    intro err0 c post fd _ hsock hconn
    constructor <;> simp [tls_connect_loop, hsock, hconn]
  | cons a pre ih =>
    intro err0 c post fd hpre hsock hconn
    have ha : candFails net a = true := hpre a (by simp)
    have hrest : ∀ x ∈ pre, candFails net x = true :=
      fun x hx => hpre x (by simp [hx])
    cases hs : net.sock a with
    | error eno =>
      have h := ih (some (.socketFailed eno)) c post fd hrest hsock hconn
      refine ⟨?_, ?_⟩
      · simp [List.cons_append, tls_connect_loop, hs, h.1]
      · simp [List.cons_append, tls_connect_loop, hs, h.2]
    | ok fd2 =>
      have ha2 : (net.conn fd2 a).isSome = true := by
        unfold candFails at ha
        rw [hs] at ha
        exact ha
      cases hcn : net.conn fd2 a with
      | none =>
        rw [hcn] at ha2
        simp at ha2
      | some eno =>
        have h := ih (some (.connectFailed eno)) c post fd hrest hsock hconn
        refine ⟨?_, ?_⟩
        · simp [List.cons_append, tls_connect_loop, hs, hcn, h.1]
        · simp [List.cons_append, tls_connect_loop, hs, hcn, h.2]

/-- When every candidate fails, the loop ends with no descriptor, the
last candidate's error, and every opened descriptor closed; helper for
C8. -/
theorem tls_connect_loop_allfail (net : NetEnv) :
    ∀ (cs : List AddrInfo) (err0 : Option TlsErr) (c : AddrInfo),
      (∀ a ∈ cs ++ [c], candFails net a = true) →
      (tls_connect_loop net err0 (cs ++ [c])).sockfd = none ∧
      (tls_connect_loop net err0 (cs ++ [c])).err = candErr net c ∧
      (tls_connect_loop net err0 (cs ++ [c])).opened =
        (tls_connect_loop net err0 (cs ++ [c])).closed := by
  intro cs
  induction cs with
  | nil =>
    intro err0 c hall
    have hc : candFails net c = true := hall c (by simp)
    cases hs : net.sock c with
    | error eno =>
      simp [tls_connect_loop, hs, candErr]
    | ok fd =>
      have hc2 : (net.conn fd c).isSome = true := by
        unfold candFails at hc
        rw [hs] at hc
        exact hc
      cases hcn : net.conn fd c with
      | none =>
        rw [hcn] at hc2
        simp at hc2
      | some eno =>
        simp [tls_connect_loop, hs, hcn, candErr]
  | cons a cs ih =>
    intro err0 c hall
    have ha : candFails net a = true := hall a (by simp)
    have hrest : ∀ x ∈ cs ++ [c], candFails net x = true :=
      fun x hx => hall x (List.mem_cons_of_mem a hx)
    cases hs : net.sock a with
    | error eno =>
      have h := ih (some (.socketFailed eno)) c hrest
      constructor
      · simp [List.cons_append, tls_connect_loop, hs, h.1]
      constructor
      · simp [List.cons_append, tls_connect_loop, hs, h.2.1]
      · simp [List.cons_append, tls_connect_loop, hs, h.2.2]
    | ok fd2 =>
      have ha2 : (net.conn fd2 a).isSome = true := by
        unfold candFails at ha
        rw [hs] at ha
        exact ha
      cases hcn : net.conn fd2 a with
      | none =>
        rw [hcn] at ha2
        simp at ha2
      | some eno =>
        have h := ih (some (.connectFailed eno)) c hrest
        constructor
        · simp [List.cons_append, tls_connect_loop, hs, hcn, h.1]
        constructor
        · simp [List.cons_append, tls_connect_loop, hs, hcn, h.2.1]
        · simp [List.cons_append, tls_connect_loop, hs, hcn, h.2.2]

/-- C8: the connect loop attempts candidates in order and stops at the
first successful one, never touching the candidates after it; when
every candidate fails, the loop returns no descriptor, reports the
error of the last attempted candidate, and every descriptor it opened
was closed. -/
theorem C8_connector :
    (∀ (net : NetEnv) (err0 : Option TlsErr) (pre post : List AddrInfo)
        (c : AddrInfo) (fd : Nat),
        (∀ a ∈ pre, candFails net a = true) →
        net.sock c = .ok fd → net.conn fd c = none →
        tls_connect_loop net err0 (pre ++ c :: post) =
          tls_connect_loop net err0 (pre ++ [c]) ∧
        (tls_connect_loop net err0 (pre ++ c :: post)).sockfd = some fd) ∧
    (∀ (net : NetEnv) (err0 : Option TlsErr) (cs : List AddrInfo)
        (c : AddrInfo),
        (∀ a ∈ cs ++ [c], candFails net a = true) →
        (tls_connect_loop net err0 (cs ++ [c])).sockfd = none ∧
        (tls_connect_loop net err0 (cs ++ [c])).err = candErr net c ∧
        (tls_connect_loop net err0 (cs ++ [c])).opened =
          (tls_connect_loop net err0 (cs ++ [c])).closed) :=
  ⟨fun net err0 pre post c fd => tls_connect_loop_first net pre err0 c post fd,
   fun net err0 cs c => tls_connect_loop_allfail net cs err0 c⟩

/-- A socket layer where candidate address 0 fails at `socket`,
candidate address 1 fails at `connect`, and every other candidate
connects; descriptors are 10 plus the address tag. -/
def net0 : NetEnv :=
  { sock := fun a => if a.addr = 0 then .error 13 else .ok (10 + a.addr)
    conn := fun _ a => if a.addr = 1 then some 111 else none }

/-- Witness for C8: with candidates 0 (socket failure), 1 (connect
failure), 2 (success) and 3 (never reached), the loop returns
descriptor 12 and ignores candidate 3; on the all-failing list [0, 1]
it returns no descriptor, the connect error of candidate 1, and has
closed everything it opened. -/
theorem C8_witness :
    (tls_connect_loop net0 none
        [⟨2, 1, 6, 0⟩, ⟨2, 1, 6, 1⟩, ⟨2, 1, 6, 2⟩, ⟨2, 1, 6, 3⟩] =
      tls_connect_loop net0 none [⟨2, 1, 6, 0⟩, ⟨2, 1, 6, 1⟩, ⟨2, 1, 6, 2⟩]) ∧
    (tls_connect_loop net0 none
        [⟨2, 1, 6, 0⟩, ⟨2, 1, 6, 1⟩, ⟨2, 1, 6, 2⟩, ⟨2, 1, 6, 3⟩]).sockfd
      = some 12 ∧
    (tls_connect_loop net0 none [⟨2, 1, 6, 0⟩, ⟨2, 1, 6, 1⟩]).sockfd = none ∧
    (tls_connect_loop net0 none [⟨2, 1, 6, 0⟩, ⟨2, 1, 6, 1⟩]).err
      = some (TlsErr.connectFailed 111) ∧
    (tls_connect_loop net0 none [⟨2, 1, 6, 0⟩, ⟨2, 1, 6, 1⟩]).opened
      = (tls_connect_loop net0 none [⟨2, 1, 6, 0⟩, ⟨2, 1, 6, 1⟩]).closed := by
  have h1 := C8_connector.1 net0 none [⟨2, 1, 6, 0⟩, ⟨2, 1, 6, 1⟩]
    [⟨2, 1, 6, 3⟩] ⟨2, 1, 6, 2⟩ 12 (by decide) rfl rfl
  have h2 := C8_connector.2 net0 none [⟨2, 1, 6, 0⟩] ⟨2, 1, 6, 1⟩ (by decide)
  exact ⟨h1.1, h1.2, h2.1, h2.2.1.trans rfl, h2.2.2⟩

